import Mathlib

/-!
Verification of the HVMX interaction-net core (crates/hvmx-core) against its
specification.  The Rust source is shallowly embedded: `Port` (port.rs),
`Numb` (numb.rs), `GNet` (net.rs), `Book`/`Def` (book.rs) and the interaction
engine (interact.rs).  Machine integers are modelled as `Nat` with the masks
and wrap-arounds of the source made explicit; the `unreachable!()` branch of
`Port::tag` is modelled as `Option.none`, and the `Result<(), String>` of the
engine as `Except String` returning the (possibly updated) net.
-/

namespace HVMX

/-- Tag of a port, from port.rs: `Var = 0`, `Ref = 1`, `Num = 2` (the enum is
closed; the comment `// ... outros` marks no further variants). -/
inductive Tag where
  | Var
  | Ref
  | Num
deriving DecidableEq

/-- Discriminant of the tag, as in `tag as u32`. -/
def Tag.toNat : Tag → Nat
  | .Var => 0
  | .Ref => 1
  | .Num => 2

/-- Port, from port.rs: a 32-bit value, 3-bit tag in bits 29..31 and a
29-bit payload in bits 0..28. -/
structure Port where
  bits : Nat
deriving DecidableEq

/-- `Port::new(tag, val) = ((tag as u32) << 29) | (val & 0x1FFFFFFF)`. -/
def Port.new (tag : Tag) (val : Nat) : Port :=
  ⟨(tag.toNat <<< 29) ||| (val &&& 0x1FFFFFFF)⟩

/-- Decoding of the tag bits in `Port::tag`; the wildcard arm of the source
is `unreachable!()`, modelled as `none`. -/
def tagOfBits (n : Nat) : Option Tag :=
  match n with
  | 0 => some .Var
  | 1 => some .Ref
  | 2 => some .Num
  | _ => none

/-- `Port::tag`: match on `self.0 >> 29`. -/
def Port.tag (p : Port) : Option Tag :=
  tagOfBits (p.bits >>> 29)

/-- `Port::val = self.0 & 0x1FFFFFFF`. -/
def Port.val (p : Port) : Nat :=
  p.bits &&& 0x1FFFFFFF

/-- Numb, from numb.rs: a `u64` payload kept in a 60-bit domain by
`Numb::new`'s mask.  The field is public in the source, so the payload is
carried as-is and the 60-bit invariant is a hypothesis where needed. -/
structure Numb where
  val : Nat
deriving DecidableEq

/-- `Numb::new(val) = Numb(val & 0x0FFFFFFFFFFFFFFF)`. -/
def Numb.new (v : Nat) : Numb :=
  ⟨v &&& 0x0FFFFFFFFFFFFFFF⟩

/-- `impl Add for Numb`: `Numb::new(self.0.wrapping_add(other.0))`; for
`u64` payloads `wrapping_add` is addition modulo `2^64`. -/
def Numb.add (a b : Numb) : Numb :=
  Numb.new ((a.val + b.val) % 2 ^ 64)

/-- `impl Sub for Numb`: `Numb::new(self.0.wrapping_sub(other.0))`; for
`u64` payloads `a.wrapping_sub(b) = (a + 2^64 - b) % 2^64`. -/
def Numb.sub (a b : Numb) : Numb :=
  Numb.new ((a.val + 2 ^ 64 - b.val) % 2 ^ 64)

/-- `impl Mul for Numb`: `Numb::new(self.0.wrapping_mul(other.0))`. -/
def Numb.mul (a b : Numb) : Numb :=
  Numb.new ((a.val * b.val) % 2 ^ 64)

/-- `impl Div for Numb`: `if other.0 == 0 { Numb(0) } else
{ Numb::new(self.0 / other.0) }`. -/
def Numb.div (a b : Numb) : Numb :=
  if b.val = 0 then ⟨0⟩ else Numb.new (a.val / b.val)

/-- GNet, from net.rs: node storage (`Vec<u64>`) and the pending-redex set
(`Vec<(Port, Port)>`). -/
structure GNet where
  nodes : List Nat
  redexes : List (Port × Port)
deriving DecidableEq

/-- `GNet::new()`: both vectors empty. -/
def GNet.new : GNet :=
  ⟨[], []⟩

/-- Def, from book.rs: a named definition with arity and template net. -/
structure Def where
  name : String
  arity : Nat
  net : GNet
deriving DecidableEq

/-- Association-list lookup modelling `HashMap::get`. -/
def lookupKey : List (String × Def) → String → Option Def
  | [], _ => none
  | (k, d) :: rest, n => if k = n then some d else lookupKey rest n

/-- Removal of a key's binding, used to model `HashMap::insert`'s
replacement of an existing entry. -/
def removeKey : List (String × Def) → String → List (String × Def)
  | [], _ => []
  | (k, d) :: rest, n =>
      if k = n then removeKey rest n else (k, d) :: removeKey rest n

/-- Book, from book.rs: `HashMap<String, Def>`, modelled as an association
list with at most one binding per key. -/
structure Book where
  defs : List (String × Def)
deriving DecidableEq

/-- `Book::new()`. -/
def Book.new : Book :=
  ⟨[]⟩

/-- `Book::insert`: `HashMap::insert` replaces any existing binding of the
name (last write wins). -/
def Book.insert (b : Book) (name : String) (d : Def) : Book :=
  ⟨(name, d) :: removeKey b.defs name⟩

/-- `Book::get`: pure lookup. -/
def Book.get (b : Book) (name : String) : Option Def :=
  lookupKey b.defs name

/-- The interaction rules of interact.rs. -/
inductive Rule where
  | Link
  | Anni
  | Comm
  | Eras
  | Deref
  | Call
  | Copy
  | Oper
deriving DecidableEq

/-- The match of `get_rule` on the two decoded tags, with the source's arm
order: `(Var, Var)`, then `(Var, _) | (_, Var)`, then `(Ref, _) | (_, Ref)`,
then `(Num, Num)`.  The source's final `_ => Rule::Link` fallback is
unreachable over the three-variant tag enum. -/
def ruleOfTags : Tag → Tag → Rule
  | .Var, .Var => .Link
  | .Var, _ => .Link
  | _, .Var => .Link
  | .Ref, _ => .Deref
  | _, .Ref => .Deref
  | .Num, .Num => .Oper

/-- `get_rule(a, b)`: decodes both tags (each decode can hit the
`unreachable!()` of `Port::tag`, hence `Option`) and dispatches. -/
def get_rule (a b : Port) : Option Rule :=
  match a.tag, b.tag with
  | some ta, some tb => some (ruleOfTags ta tb)
  | _, _ => none

/-- `interact_link`: body is a TODO in the source; returns `Ok(())` without
touching the net. -/
def interact_link (net : GNet) (_a _b : Port) : Except String GNet :=
  Except.ok net

/-- `interact_anni`: stub, returns `Ok(())`. -/
def interact_anni (net : GNet) (_a _b : Port) : Except String GNet :=
  Except.ok net

/-- `interact_comm`: stub, returns `Ok(())`. -/
def interact_comm (net : GNet) (_a _b : Port) : Except String GNet :=
  Except.ok net

/-- `interact_eras`: stub, returns `Ok(())`. -/
def interact_eras (net : GNet) (_a _b : Port) : Except String GNet :=
  Except.ok net

/-- `interact_deref`: stub, returns `Ok(())`; it consults neither the Book
(no Book parameter exists) nor the net. -/
def interact_deref (net : GNet) (_a _b : Port) : Except String GNet :=
  Except.ok net

/-- `interact_call`: stub, returns `Ok(())`. -/
def interact_call (net : GNet) (_a _b : Port) : Except String GNet :=
  Except.ok net

/-- `interact_copy`: stub, returns `Ok(())`. -/
def interact_copy (net : GNet) (_a _b : Port) : Except String GNet :=
  Except.ok net

/-- `interact_oper`: computes `a.val() + b.val()` into an unused local
(`let _result = val_a + val_b`) and returns `Ok(())`; the sum is the `u32`
addition of the two 29-bit payloads (never overflowing `u32`), and nothing
is written back to the net. -/
def interact_oper (net : GNet) (a b : Port) : Except String GNet :=
  let val_a := a.val
  let val_b := b.val
  let _result := val_a + val_b
  Except.ok net

/-- `interact(net, a, b)`: classify with `get_rule` (whose tag decodes can
panic, hence `Option`) and dispatch to the rule's body. -/
def interact (net : GNet) (a b : Port) : Option (Except String GNet) :=
  (get_rule a b).map fun rule =>
    match rule with
    | .Link => interact_link net a b
    | .Anni => interact_anni net a b
    | .Comm => interact_comm net a b
    | .Eras => interact_eras net a b
    | .Deref => interact_deref net a b
    | .Call => interact_call net a b
    | .Copy => interact_copy net a b
    | .Oper => interact_oper net a b

/-! Helper lemmas -/

/-- Masking with `0x1FFFFFFF` is reduction modulo `2^29`. -/
theorem and_mask29 (v : Nat) : v &&& 0x1FFFFFFF = v % 2 ^ 29 := by
  have h : (0x1FFFFFFF : Nat) = 2 ^ 29 - 1 := by norm_num
  rw [h, Nat.and_pow_two_sub_one_eq_mod]

/-- Masking with `0x0FFFFFFFFFFFFFFF` is reduction modulo `2^60`. -/
theorem and_mask60 (v : Nat) : v &&& 0x0FFFFFFFFFFFFFFF = v % 2 ^ 60 := by
  have h : (0x0FFFFFFFFFFFFFFF : Nat) = 2 ^ 60 - 1 := by norm_num
  rw [h, Nat.and_pow_two_sub_one_eq_mod]

/-- Arithmetic characterisation of the bit-packing in `Port::new`. -/
theorem port_new_bits (t : Tag) (v : Nat) :
    (Port.new t v).bits = t.toNat * 2 ^ 29 + v % 2 ^ 29 := by
  show (t.toNat <<< 29) ||| (v &&& 0x1FFFFFFF) = _
  rw [and_mask29, Nat.shiftLeft_eq]
  have hv : v % 2 ^ 29 < 2 ^ 29 := Nat.mod_lt _ (by norm_num)
  rw [Nat.mul_comm t.toNat]
  exact (Nat.mul_add_lt_is_or hv t.toNat).symm

/-- The tag bits of a constructed port recover the tag's discriminant. -/
theorem port_new_tagbits (t : Tag) (v : Nat) :
    (Port.new t v).bits >>> 29 = t.toNat := by
  rw [port_new_bits, Nat.shiftRight_eq_div_pow]
  have hv : v % 2 ^ 29 < 2 ^ 29 := Nat.mod_lt _ (by norm_num)
  omega

/-- Tag projection of a constructed port. -/
theorem port_tag_new (t : Tag) (v : Nat) : (Port.new t v).tag = some t := by
  show tagOfBits ((Port.new t v).bits >>> 29) = some t
  rw [port_new_tagbits]
  cases t <;> rfl

/-- Payload projection of a constructed port. -/
theorem port_val_new (t : Tag) (v : Nat) : (Port.new t v).val = v % 2 ^ 29 := by
  show (Port.new t v).bits &&& 0x1FFFFFFF = v % 2 ^ 29
  rw [port_new_bits, and_mask29]
  omega

/-- Payload of `Numb::new`. -/
theorem numb_new_val (v : Nat) : (Numb.new v).val = v % 2 ^ 60 := by
  show v &&& 0x0FFFFFFFFFFFFFFF = v % 2 ^ 60
  exact and_mask60 v

/-- `get_rule` on two constructed ports dispatches on the tags. -/
theorem get_rule_new (ta tb : Tag) (va vb : Nat) :
    get_rule (Port.new ta va) (Port.new tb vb) = some (ruleOfTags ta tb) := by
  unfold get_rule
  rw [port_tag_new, port_tag_new]

/-- The tag-level classifier is symmetric in its operands. -/
theorem ruleOfTags_symm (ta tb : Tag) : ruleOfTags ta tb = ruleOfTags tb ta := by
  cases ta <;> cases tb <;> rfl

/-- Lookup is unaffected by removal of a different key. -/
theorem lookupKey_removeKey (l : List (String × Def)) (n m : String)
    (hm : m ≠ n) : lookupKey (removeKey l n) m = lookupKey l m := by
  induction l with
  | nil => rfl
  | cons hd tl ih =>
    obtain ⟨k, d⟩ := hd
    by_cases hk : k = n
    · subst hk
      have hkm : k ≠ m := Ne.symm hm
      simp [removeKey, lookupKey, hkm, ih]
    · by_cases hkm : k = m <;> simp [removeKey, lookupKey, hk, hkm, hm, ih]

/-! Claim theorems -/

/-- Claim C5: packing round-trips — for every tag in the closed tag set and
every 32-bit value `v`, `tag (make t v) = t` and `val (make t v)` is `v`
masked to the 29-bit payload width; a wider payload is truncated by the
mask, never rejected. -/
theorem port_pack_roundtrip (t : Tag) (v : Nat) (_hv : v < 2 ^ 32) :
    (Port.new t v).tag = some t ∧ (Port.new t v).val = v &&& 0x1FFFFFFF := by
  refine ⟨port_tag_new t v, ?_⟩
  rw [port_val_new, and_mask29]

/-- Witness for C5 at tag `Num`, value 42. -/
theorem port_pack_roundtrip_witness :
    (42 : Nat) < 2 ^ 32 ∧
    ((Port.new Tag.Num 42).tag = some Tag.Num ∧
      (Port.new Tag.Num 42).val = 42 &&& 0x1FFFFFFF) :=
  ⟨by norm_num, port_pack_roundtrip Tag.Num 42 (by norm_num)⟩

/-- Claim C10: for every port built by `Port::new` from a tag of the enum and
any 32-bit value, the stored tag bits are in `{0, 1, 2}`, so `Port::tag`
never reaches its `unreachable!()` branch (modelled as `none`). -/
theorem port_tag_total (t : Tag) (v : Nat) (_hv : v < 2 ^ 32) :
    (Port.new t v).bits >>> 29 < 3 ∧ (Port.new t v).tag ≠ none := by
  constructor
  · rw [port_new_tagbits]
    cases t <;> decide
  · rw [port_tag_new]
    simp

/-- Witness for C10 at tag `Var`, value 7. -/
theorem port_tag_total_witness :
    (7 : Nat) < 2 ^ 32 ∧
    ((Port.new Tag.Var 7).bits >>> 29 < 3 ∧ (Port.new Tag.Var 7).tag ≠ none) :=
  ⟨by norm_num, port_tag_total Tag.Var 7 (by norm_num)⟩

/-- Counterexample for C3 as stated: a `Ref` port against a `Var` port is
classified `Link`, not `Deref` — the `(Var, _) | (_, Var)` arm of `get_rule`
precedes the `(Ref, _) | (_, Ref)` arm. -/
theorem get_rule_ref_var_counterexample :
    get_rule (Port.new Tag.Ref 1) (Port.new Tag.Var 2) = some Rule.Link ∧
      get_rule (Port.new Tag.Ref 1) (Port.new Tag.Var 2) ≠ some Rule.Deref := by
  rw [get_rule_new]
  exact ⟨rfl, by decide⟩

/-- Claim C3 (amended): for every pair of ports in which at least one port
carries `Ref` and neither port carries `Var`, `get_rule` selects `Deref`;
a `Var` on either side takes precedence and yields `Link` instead. -/
theorem get_rule_ref_deref (a b : Port) (ta tb : Tag)
    (ha : a.tag = some ta) (hb : b.tag = some tb)
    (href : ta = Tag.Ref ∨ tb = Tag.Ref)
    (hna : ta ≠ Tag.Var) (hnb : tb ≠ Tag.Var) :
    get_rule a b = some Rule.Deref := by
  unfold get_rule
  rw [ha, hb]
  cases ta <;> cases tb <;> simp_all [ruleOfTags]

/-- Witness for C3's amended theorem at `Ref` versus `Num`. -/
theorem get_rule_ref_deref_witness :
    ((Port.new Tag.Ref 1).tag = some Tag.Ref ∧
      (Port.new Tag.Num 2).tag = some Tag.Num) ∧
    get_rule (Port.new Tag.Ref 1) (Port.new Tag.Num 2) = some Rule.Deref :=
  ⟨⟨port_tag_new Tag.Ref 1, port_tag_new Tag.Num 2⟩,
    get_rule_ref_deref (Port.new Tag.Ref 1) (Port.new Tag.Num 2) Tag.Ref Tag.Num
      (port_tag_new Tag.Ref 1) (port_tag_new Tag.Num 2)
      (Or.inl rfl) (by decide) (by decide)⟩

/-- Claim C4: rule classification is symmetric in its two operands, and on
the closed tag set it is total, selecting exactly one rule for every pair of
tags. -/
theorem get_rule_symm_total :
    (∀ a b : Port, get_rule a b = get_rule b a) ∧
    (∀ ta tb : Tag, ∃! r : Rule, ruleOfTags ta tb = r) := by
  constructor
  · intro a b
    unfold get_rule
    rcases a.tag with _ | ta <;> rcases b.tag with _ | tb <;>
      simp [ruleOfTags_symm]
  · intro ta tb
    exact ⟨ruleOfTags ta tb, rfl, fun r h => h.symm⟩

/-- Witness for C4 at a concrete `Num`/`Ref` pair of ports. -/
theorem get_rule_symm_total_witness :
    get_rule (Port.new Tag.Num 1) (Port.new Tag.Ref 2) =
      get_rule (Port.new Tag.Ref 2) (Port.new Tag.Num 1) :=
  get_rule_symm_total.1 (Port.new Tag.Num 1) (Port.new Tag.Ref 2)

/-- Claim C6: division of any `Numb` by the zero numeral yields the zero
numeral (never a trap), and for 60-bit operands with a nonzero divisor the
result is the ordinary integer quotient, which stays in the 60-bit
domain. -/
theorem numb_div_safe :
    (∀ a : Nat, Numb.div ⟨a⟩ ⟨0⟩ = ⟨0⟩) ∧
    (∀ a b : Nat, a < 2 ^ 60 → b < 2 ^ 60 → b ≠ 0 →
      Numb.div ⟨a⟩ ⟨b⟩ = ⟨a / b⟩ ∧ a / b < 2 ^ 60) := by
  constructor
  · intro a
    rfl
  · intro a b ha hb hb0
    have hq : a / b ≤ a := Nat.div_le_self a b
    have hlt : a / b < 2 ^ 60 := lt_of_le_of_lt hq ha
    refine ⟨?_, hlt⟩
    unfold Numb.div
    rw [if_neg hb0]
    show Numb.new (a / b) = _
    unfold Numb.new
    rw [and_mask60, Nat.mod_eq_of_lt hlt]

/-- Witness for C6: `20 / 4 = 5` and `10 / 0 = 0`. -/
theorem numb_div_safe_witness :
    ((20 : Nat) < 2 ^ 60 ∧ (4 : Nat) < 2 ^ 60 ∧ (4 : Nat) ≠ 0) ∧
    Numb.div ⟨10⟩ ⟨0⟩ = ⟨0⟩ ∧
    (Numb.div ⟨20⟩ ⟨4⟩ = ⟨20 / 4⟩ ∧ 20 / 4 < 2 ^ 60) :=
  ⟨⟨by norm_num, by norm_num, by norm_num⟩,
    numb_div_safe.1 10,
    numb_div_safe.2 20 4 (by norm_num) (by norm_num) (by norm_num)⟩

/-- Claim C7: for 60-bit operands, `(a + b) - b = a` under the wraparound
semantics of `Numb` addition and subtraction, and each operation's result
stays in the 60-bit domain. -/
theorem numb_add_sub_cancel (a b : Nat) (ha : a < 2 ^ 60) (hb : b < 2 ^ 60) :
    Numb.sub (Numb.add ⟨a⟩ ⟨b⟩) ⟨b⟩ = ⟨a⟩ ∧
    (Numb.add ⟨a⟩ ⟨b⟩).val < 2 ^ 60 ∧ (Numb.sub ⟨a⟩ ⟨b⟩).val < 2 ^ 60 := by
  refine ⟨?_, ?_, ?_⟩
  · have h1 : (Numb.sub (Numb.add ⟨a⟩ ⟨b⟩) ⟨b⟩).val = a := by
      show (((((a + b) % 2 ^ 64) &&& 0x0FFFFFFFFFFFFFFF) + 2 ^ 64 - b) % 2 ^ 64)
          &&& 0x0FFFFFFFFFFFFFFF = a
      rw [and_mask60, and_mask60]
      omega
    calc Numb.sub (Numb.add ⟨a⟩ ⟨b⟩) ⟨b⟩
        = ⟨(Numb.sub (Numb.add ⟨a⟩ ⟨b⟩) ⟨b⟩).val⟩ := rfl
      _ = ⟨a⟩ := by rw [h1]
  · show (((a + b) % 2 ^ 64) &&& 0x0FFFFFFFFFFFFFFF) < 2 ^ 60
    rw [and_mask60]
    exact Nat.mod_lt _ (by norm_num)
  · show (((a + 2 ^ 64 - b) % 2 ^ 64) &&& 0x0FFFFFFFFFFFFFFF) < 2 ^ 60
    rw [and_mask60]
    exact Nat.mod_lt _ (by norm_num)

/-- Witness for C7 at `a = 10`, `b = 3`. -/
theorem numb_add_sub_cancel_witness :
    ((10 : Nat) < 2 ^ 60 ∧ (3 : Nat) < 2 ^ 60) ∧
    (Numb.sub (Numb.add ⟨10⟩ ⟨3⟩) ⟨3⟩ = ⟨10⟩ ∧
      (Numb.add ⟨10⟩ ⟨3⟩).val < 2 ^ 60 ∧ (Numb.sub ⟨10⟩ ⟨3⟩).val < 2 ^ 60) :=
  ⟨⟨by norm_num, by norm_num⟩,
    numb_add_sub_cancel 10 3 (by norm_num) (by norm_num)⟩

/-- Claim C8: `Book::insert` overwrites on name collision with
last-write-wins semantics — after inserting `d1` then `d2` under the same
name, `get` of that name returns `d2`, and every other name's entry is
unaffected. -/
theorem book_insert_last_write_wins (b : Book) (n : String) (d1 d2 : Def) :
    ((b.insert n d1).insert n d2).get n = some d2 ∧
    (∀ m : String, m ≠ n → ((b.insert n d1).insert n d2).get m = b.get m) := by
  constructor
  · show lookupKey ((n, d2) :: removeKey ((n, d1) :: removeKey b.defs n) n) n
        = some d2
    simp [lookupKey]
  · intro m hm
    show lookupKey ((n, d2) :: removeKey ((n, d1) :: removeKey b.defs n) n) m
        = lookupKey b.defs m
    have hnm : n ≠ m := Ne.symm hm
    rw [lookupKey, if_neg hnm, lookupKey_removeKey _ _ _ hm, lookupKey,
      if_neg hnm, lookupKey_removeKey _ _ _ hm]

/-- Witness for C8 with two definitions inserted under "f" and an untouched
name "g". -/
theorem book_insert_last_write_wins_witness :
    ("g" : String) ≠ "f" ∧
    (((Book.new.insert "f" ⟨"x", 1, GNet.new⟩).insert "f"
        ⟨"y", 2, GNet.new⟩).get "f" = some ⟨"y", 2, GNet.new⟩ ∧
      ((Book.new.insert "f" ⟨"x", 1, GNet.new⟩).insert "f"
        ⟨"y", 2, GNet.new⟩).get "g" = Book.new.get "g") :=
  ⟨by decide,
    (book_insert_last_write_wins Book.new "f" ⟨"x", 1, GNet.new⟩
      ⟨"y", 2, GNet.new⟩).1,
    (book_insert_last_write_wins Book.new "f" ⟨"x", 1, GNet.new⟩
      ⟨"y", 2, GNet.new⟩).2 "g" (by decide)⟩

/-- Claim C9: for every net and every pair of ports whose tags decode (no
`unreachable!()` panic), `interact` returns `Ok(())` and leaves the net —
node storage and pending-redex set — exactly unchanged: every rule body is
a stub that performs no mutation. -/
theorem interact_no_mutation (net : GNet) (a b : Port)
    (ha : a.tag ≠ none) (hb : b.tag ≠ none) :
    interact net a b = some (Except.ok net) := by
  unfold interact get_rule
  rcases hta : a.tag with _ | ta
  · exact absurd hta ha
  rcases htb : b.tag with _ | tb
  · exact absurd htb hb
  show Option.map _ (some (ruleOfTags ta tb)) = _
  cases ruleOfTags ta tb <;> rfl

/-- Witness for C9 on the empty net and two variable ports. -/
theorem interact_no_mutation_witness :
    ((Port.new Tag.Var 1).tag ≠ none ∧ (Port.new Tag.Var 2).tag ≠ none) ∧
    interact GNet.new (Port.new Tag.Var 1) (Port.new Tag.Var 2)
      = some (Except.ok GNet.new) :=
  ⟨⟨by rw [port_tag_new]; simp, by rw [port_tag_new]; simp⟩,
    interact_no_mutation GNet.new (Port.new Tag.Var 1) (Port.new Tag.Var 2)
      (by rw [port_tag_new]; simp) (by rw [port_tag_new]; simp)⟩

/-- Claim C1 (divergence witness): reducing the redex of numerals 10 and 3
selects `Oper`, but `interact_oper` only computes the sum into an unused
local and returns `Ok(())` with the net unchanged — no numeral port 13 is
produced anywhere. -/
theorem interact_oper_produces_nothing :
    get_rule (Port.new Tag.Num 10) (Port.new Tag.Num 3) = some Rule.Oper ∧
    interact GNet.new (Port.new Tag.Num 10) (Port.new Tag.Num 3)
      = some (Except.ok GNet.new) :=
  ⟨by rw [get_rule_new]; rfl, by
    show Option.map _ (get_rule _ _) = _
    rw [get_rule_new]
    rfl⟩

/-- Claim C2 (divergence witness): with the empty book, the name "main" is
unregistered, yet `interact` on a `Ref` redex returns `Ok(())` — the deref
body never consults any book (none is passed) and reports no lookup
error. -/
theorem interact_deref_swallows_missing_name :
    Book.new.get "main" = none ∧
    get_rule (Port.new Tag.Ref 0) (Port.new Tag.Num 1) = some Rule.Deref ∧
    interact GNet.new (Port.new Tag.Ref 0) (Port.new Tag.Num 1)
      = some (Except.ok GNet.new) :=
  ⟨rfl, by rw [get_rule_new]; rfl, by
    show Option.map _ (get_rule _ _) = _
    rw [get_rule_new]
    rfl⟩

end HVMX
